import Mathlib

/-!
Verification development for the AmanahPro common messaging layer:
the consumer dispatcher (`services/consumer_service.go`), the publisher
retry buffer and backoff loop (`messagebroker/RabbitMQPublisher.go`),
and the connection manager (`messagebroker/RabbitMQService.go`).

The Go code is shallowly embedded: dynamic `interface \x7b\x7d` values become
an inductive `GoValue`, Go maps decoded from JSON become association lists,
calls to the external collaborators (document store, audit sink) become
entries of an `Effect` list, and each background loop becomes an explicit
step function or action trace.  External collaborator calls are modelled
as always reaching the collaborator; their network outcome is outside this
layer.  Timestamps on audit records and log output are abstracted away.
-/

set_option autoImplicit false

/-- A Go dynamic value (`interface \x7b\x7d`) as the consumer observes it through
type assertions.  `vnum` is a `float64` (the type `encoding/json` gives every
JSON number when decoding into `map[string]interface \x7b\x7d`), idealised as a
rational; `vint` is a native Go `int`, which JSON decoding never produces. -/
inductive GoValue where
  | vstr (s : String)
  | vnum (q : ℚ)
  | vint (n : ℤ)
  | vbool (b : Bool)
  | vnull
  | varr (xs : List GoValue)
  | vobj (fields : List (String × GoValue))

/-- A Go `map[string]interface \x7b\x7d` decoded from a JSON object, as an
association list (keys of a decoded JSON object are distinct; the first
binding wins on lookup).  A `nil` map is the empty list. -/
abbrev GoMap := List (String × GoValue)

/-- Go map lookup `m[k]`: `none` when the key is absent (the `ok` of the
two-valued form is `false`). -/
def mlookup (m : GoMap) (k : String) : Option GoValue :=
  (m.find? (fun p => p.1 == k)).map (fun p => p.2)

/-- The Go type assertion `v.(string)`: succeeds only on a string value. -/
def asString : GoValue → Option String
  | .vstr s => some s
  | _ => none

/-- The Go type assertion `v.(int)`: succeeds only on a native `int` value,
never on a `float64` coming from JSON decoding. -/
def asInt : GoValue → Option ℤ
  | .vint n => some n
  | _ => none

/-- The Go type assertion `v.(map[string]interface \x7b\x7d)`. -/
def asObj : GoValue → Option GoMap
  | .vobj m => some m
  | _ => none

/-- Round a rational to the nearest integer with ties to even, the rounding
Go applies when formatting a `float64` with fixed precision `%.0f`.  The
fractional part `q - ⌊q⌋ = (q.num - ⌊q⌋ * q.den) / q.den` is compared with
one half on numerators: doubling it and comparing with `q.den` (positive),
so the definition stays kernel-computable. -/
def roundHalfEven (q : ℚ) : ℤ :=
  let f := q.floor
  let num2 := 2 * (q.num - f * (q.den : ℤ))
  if num2 < (q.den : ℤ) then f
  else if (q.den : ℤ) < num2 then f + 1
  else if f % 2 = 0 then f else f + 1

/-- Go `fmt.Sprintf` with verb `%.0f` on a `float64`: the value rounded to the
nearest integer (ties to even) in decimal, keeping the sign of a negative
value that rounds to zero (`q.num < 0` is `q < 0`). -/
def formatF0 (q : ℚ) : String :=
  let n := roundHalfEven q
  if n = 0 ∧ q.num < 0 then "-0" else toString n

/-- `convertToString` from `services/consumer_service.go`: coerces a document
identifier to a string.  Strings pass through, `float64` values are formatted
with `%.0f`, native integers with `%d`; every other dynamic type is an
unsupported-type error. -/
def convertToString : GoValue → Except String String
  | .vstr s => .ok s
  | .vnum q => .ok (formatF0 q)
  | .vint n => .ok (toString n)
  | _ => .error "unsupported type"

/-- The audit record `logAuditTrail` writes to the audit-trail index.  The
`timestamp` field (wall-clock time) is abstracted away.  `newData` and
`oldData` are `none` when the Go code passes a nil map or nil interface. -/
structure AuditRecord where
  traceId : String
  action : String
  resource : String
  resourceId : String
  userId : ℤ
  newData : Option GoMap
  oldData : Option GoMap

/-- A call made to an external collaborator: an audit-sink write, a
document-store upsert (`indexDocument`, keyed by document id), or a
document-store delete (`deleteDocument`). -/
inductive Effect where
  | audit (r : AuditRecord)
  | upsert (docId : String) (doc : GoMap)
  | delete (docId : String)

/-- The extraction `userID, _ := meta["userId"].(int)` shared by both
handlers: the type assertion to native `int`, defaulting to `0` when the key
is absent or the value is not a native `int`. -/
def extractUserID (meta : GoMap) : ℤ :=
  ((mlookup meta "userId").bind asInt).getD 0

/-- `ConsumerService.handleCreatedOrUpdated`: requires `meta.idField` (a
non-empty string), defaults `meta.action` to `"UPDATE"`, reads `traceId`
and `userId` leniently, requires `payload.newData` to be a map holding the
identifier, coerces the identifier to a string, writes an audit record
(failures of the audit write are logged and ignored) and then upserts
`newData` under that id.  `index` is the document-store index name. -/
def handleCreatedOrUpdated (index : String) (payload meta : GoMap) :
    Except String (List Effect) :=
  match (mlookup meta "idField").bind asString with
  | none => .error "invalid or missing idField"
  | some idField =>
    if idField = "" then .error "invalid or missing idField"
    else
      let action :=
        match (mlookup meta "action").bind asString with
        | some a => if a = "" then "UPDATE" else a
        | none => "UPDATE"
      let traceID := ((mlookup meta "traceId").bind asString).getD ""
      let userID := extractUserID meta
      match (mlookup payload "newData").bind asObj with
      | none => .error "missing or invalid newData in payload"
      | some newData =>
        let oldData := (mlookup payload "oldData").bind asObj
        match mlookup newData idField with
        | none => .error "missing document ID in newData"
        | some docID =>
          match docID with
          | .vnull => .error "missing document ID in newData"
          | _ =>
            match convertToString docID with
            | .error e => .error ("invalid document ID: " ++ e)
            | .ok docIDStr =>
              .ok [Effect.audit
                     { traceId := traceID, action := action, resource := index,
                       resourceId := docIDStr, userId := userID,
                       newData := some newData, oldData := oldData },
                   Effect.upsert docIDStr newData]

/-- `ConsumerService.handleDeleted`: the identifier field defaults to `"id"`
unless `meta.idField` is a string (any string, including the empty one);
the identifier is read from the payload root and coerced to a string; an
audit record with action `"DELETE"` is written only when both `traceId` is
non-empty and `userId` is non-zero, and the document is then deleted. -/
def handleDeleted (index : String) (payload meta : GoMap) :
    Except String (List Effect) :=
  let idField :=
    match (mlookup meta "idField").bind asString with
    | some f => f
    | none => "id"
  match mlookup payload idField with
  | none => .error "missing document ID"
  | some docID =>
    match docID with
    | .vnull => .error "missing document ID"
    | _ =>
      match convertToString docID with
      | .error e => .error ("invalid document ID: " ++ e)
      | .ok docIDStr =>
        let traceID := ((mlookup meta "traceId").bind asString).getD ""
        let userID := extractUserID meta
        let auditPart : List Effect :=
          if traceID ≠ "" ∧ userID ≠ 0 then
            [Effect.audit
               { traceId := traceID, action := "DELETE", resource := index,
                 resourceId := docIDStr, userId := userID,
                 newData := none, oldData := some payload }]
          else []
        .ok (auditPart ++ [Effect.delete docIDStr])

/-- The event kinds registered in `NewConsumerService`. -/
def registeredEvents : List String := ["Created", "Updated", "Deleted", "Reindexed"]

/-- The handler table built in `NewConsumerService`, as a lookup from event
kind to handler. -/
def lookupHandler (event : String) :
    Option (String → GoMap → GoMap → Except String (List Effect)) :=
  if event = "Created" then some handleCreatedOrUpdated
  else if event = "Updated" then some handleCreatedOrUpdated
  else if event = "Deleted" then some handleDeleted
  else if event = "Reindexed" then some handleCreatedOrUpdated
  else none

/-- The decoded form of a message body: either JSON unmarshalling of the
envelope fails (`malformed`), or it yields an event kind, a payload map and
a metadata map (absent JSON fields decode to nil maps, here empty lists). -/
inductive Body where
  | malformed
  | wellFormed (event : String) (payload meta : GoMap)

/-- `ConsumerService.processMessage`: decode the body, look the event kind up
in the handler table, treat an unknown kind as a non-error no-op, otherwise
run the handler on payload and metadata. -/
def processMessage (index : String) : Body → Except String (List Effect)
  | .malformed => .error "failed to parse message"
  | .wellFormed event payload meta =>
    match lookupHandler event with
    | none => .ok []
    | some h => h index payload meta

/-- An acknowledgement sent to the broker for one delivery. -/
inductive AckAction where
  | ack
  | nackRequeue
  deriving DecidableEq, Repr

/-- The acknowledgements issued by the per-message goroutine body in
`ConsumerService.StartConsumer`: `Nack(false, true)` when `processMessage`
returns an error, `Ack(false)` otherwise. -/
def deliveryAcks (index : String) (b : Body) : List AckAction :=
  match processMessage index b with
  | .error _ => [AckAction.nackRequeue]
  | .ok _ => [AckAction.ack]

/-- A JSON value on the wire: what a message body holds before
`encoding/json` decodes it into dynamic Go values. -/
inductive Json where
  | jnull
  | jbool (b : Bool)
  | jnum (q : ℚ)
  | jstr (s : String)
  | jarr (xs : List Json)
  | jobj (fields : List (String × Json))

mutual

/-- The result of `encoding/json` unmarshalling a JSON value into
`interface \x7b\x7d`: every JSON number becomes a `float64` (`vnum`), never a
native `int`. -/
def Json.toGo : Json → GoValue
  | .jnull => .vnull
  | .jbool b => .vbool b
  | .jnum q => .vnum q
  | .jstr s => .vstr s
  | .jarr xs => .varr (jsonListToGo xs)
  | .jobj fs => .vobj (jsonObjToGo fs)

/-- Unmarshalling of a JSON array, element by element. -/
def jsonListToGo : List Json → List GoValue
  | [] => []
  | x :: xs => Json.toGo x :: jsonListToGo xs

/-- Unmarshalling of a JSON object, field by field. -/
def jsonObjToGo : List (String × Json) → GoMap
  | [] => []
  | (k, v) :: xs => (k, Json.toGo v) :: jsonObjToGo xs

end

/-- A wire envelope whose payload and meta are JSON objects, as decoded by
`processMessage` into the anonymous struct with `map[string]interface \x7b\x7d`
fields. -/
def decodeEnvelope (event : String) (payload meta : List (String × Json)) : Body :=
  Body.wellFormed event (jsonObjToGo payload) (jsonObjToGo meta)

/-- An entry of the publisher retry buffer (`queuedMessage` in
`messagebroker/RabbitMQPublisher.go`): destination queue name and the raw
message bytes. -/
structure QueuedMessage where
  queueName : String
  message : List ℕ
  deriving DecidableEq, Repr

/-- `RabbitMQPublisher.queueMessage`: scan the buffer for an entry whose
bytes and destination both match (Go compares `string(msg.Message)` with
`string(message)`, exact byte equality) and skip the append when one is
found; otherwise append at the end. -/
def queueMessage (buf : List QueuedMessage) (queueName : String) (message : List ℕ) :
    List QueuedMessage :=
  if buf.any (fun msg => msg.message == message && msg.queueName == queueName) then buf
  else buf ++ [{ queueName := queueName, message := message }]

/-- The retry buffer reached from the empty buffer of `NewRabbitMQPublisher`
by a sequence of `queueMessage` calls. -/
def enqueueAll (ops : List (String × List ℕ)) : List QueuedMessage :=
  ops.foldl (fun buf op => queueMessage buf op.1 op.2) []

/-- The base retry interval of the publisher (`retryInterval`, 5 seconds),
in seconds. -/
def retryInterval : ℕ := 5

/-- The backoff cap of the retry loop (`maxBackoff`, 30 seconds), in
seconds. -/
def maxBackoff : ℕ := 30

/-- What one iteration of the retry loop observes after its sleep: the
publisher is paused (skip everything), or the swapped-out buffer is empty,
or it is non-empty. -/
inductive CycleObs where
  | paused
  | empty
  | nonempty
  deriving DecidableEq, Repr

/-- The backoff update of one `retryMessages` iteration: a paused cycle
leaves the backoff unchanged (the `continue` before the swap), an empty
buffer resets it to the base interval, a non-empty buffer doubles it,
capping at `maxBackoff`. -/
def stepBackoff (b : ℕ) : CycleObs → ℕ
  | .paused => b
  | .empty => retryInterval
  | .nonempty => if b < maxBackoff then (if 2 * b > maxBackoff then maxBackoff else 2 * b) else b

/-- The duration of the sleep opening cycle `n` of a `retryMessages` loop,
given what each cycle observes: the loop starts at `retryInterval` and
updates by `stepBackoff` after every cycle. -/
def sleepDur (obs : ℕ → CycleObs) : ℕ → ℕ
  | 0 => retryInterval
  | n + 1 => stepBackoff (sleepDur obs n) (obs n)

/-- An externally visible action of the retry loop: sleeping on the backoff
timer for a number of seconds, or draining the swapped-out buffer. -/
inductive PubAction where
  | sleep (d : ℕ)
  | drain
  deriving DecidableEq, Repr

/-- The actions of one `retryMessages` iteration: the sleep always comes
first; only a cycle that is not paused and swaps out a non-empty buffer
then drains it. -/
def cycleActions (b : ℕ) : CycleObs → List PubAction
  | .paused => [PubAction.sleep b]
  | .empty => [PubAction.sleep b]
  | .nonempty => [PubAction.sleep b, PubAction.drain]

/-- The action trace of the first `n` cycles of a freshly started
`retryMessages` loop — in particular of the loop `resumePublishing` spawns
with `go p.retryMessages()`, whose backoff starts at `retryInterval`. -/
def retryTrace (obs : ℕ → CycleObs) : ℕ → List PubAction
  | 0 => []
  | n + 1 => retryTrace obs n ++ cycleActions (sleepDur obs n) (obs n)

/-- The connection-manager state the rest of the program observes: the
exported `Conn` and `Channel` fields of `RabbitMQService` (handles numbered
abstractly; `none` is a nil field).  The closure-notification channel is
not modelled. -/
structure ConnState where
  conn : Option ℕ
  channel : Option ℕ
  deriving DecidableEq, Repr

/-- The environment one `connect()` attempt runs against: the outcome of
`amqp.Dial` (a fresh connection handle, or failure), of `conn.Channel()`
(a fresh channel handle, or failure), and of each queue declaration. -/
structure ConnectEnv where
  dial : Option ℕ
  mkChannel : Option ℕ
  declareOk : String → Bool

/-- `RabbitMQService.connect` under the mutex: dial, open a channel, then
assign `s.Conn` and `s.Channel`, then declare every configured queue in
order, stopping at the first failure.  Returns the state after the attempt
and the error, if any.  Note the field assignments happen before the queue
declarations. -/
def connect (queueNames : List String) (env : ConnectEnv) (s : ConnState) :
    ConnState × Option String :=
  match env.dial with
  | none => (s, some "failed to connect to RabbitMQ")
  | some conn =>
    match env.mkChannel with
    | none => (s, some "failed to create RabbitMQ channel")
    | some channel =>
      let s' : ConnState := { conn := some conn, channel := some channel }
      if queueNames.all env.declareOk then (s', none)
      else (s', some "failed to declare queues")

/-- The wire envelope of the Created example: payload
`\x7b"newData":\x7b"id":42,"name":"x"\x7d\x7d`, meta
`\x7b"idField":"id","traceId":"t1","userId":7\x7d`. -/
def createdExample : Body :=
  decodeEnvelope "Created"
    [("newData", Json.jobj [("id", Json.jnum 42), ("name", Json.jstr "x")])]
    [("idField", Json.jstr "id"), ("traceId", Json.jstr "t1"), ("userId", Json.jnum 7)]

/-- The decoded `newData` map of `createdExample`. -/
def createdExampleNewData : GoMap :=
  [("id", GoValue.vnum 42), ("name", GoValue.vstr "x")]

/-- The wire envelope of the Deleted example: payload `\x7b"id":"7"\x7d`, empty
meta. -/
def deletedExample : Body :=
  decodeEnvelope "Deleted" [("id", Json.jstr "7")] []




/-! ## Theorems -/

/-- C1: for every consumed message, exactly one acknowledgement is issued;
a decode failure or handler error yields a negative acknowledgement with
requeue, handler success a positive acknowledgement. -/
theorem consumer_ack_discipline (index : String) (b : Body) :
    (deliveryAcks index b).length = 1 ∧
    (b = Body.malformed → deliveryAcks index b = [AckAction.nackRequeue]) ∧
    (∀ e, processMessage index b = .error e → deliveryAcks index b = [AckAction.nackRequeue]) ∧
    (∀ fx, processMessage index b = .ok fx → deliveryAcks index b = [AckAction.ack]) := by
  refine ⟨?_, ?_, ?_, ?_⟩
  · unfold deliveryAcks
    cases processMessage index b <;> simp
  · rintro rfl
    rfl
  · intro e he
    simp [deliveryAcks, he]
  · intro fx hfx
    simp [deliveryAcks, hfx]

/-- Witness for C1: concrete application at a malformed body. -/
theorem consumer_ack_discipline_witness :
    deliveryAcks "items" Body.malformed = [AckAction.nackRequeue] :=
  (consumer_ack_discipline "items" Body.malformed).2.1 rfl

/-- C2 counterexample: a message whose body fails to decode is negatively
acknowledged with requeue, not positively acknowledged and dropped. -/
theorem malformed_dropped_counterexample :
    deliveryAcks "items" Body.malformed = [AckAction.nackRequeue] ∧
    deliveryAcks "items" Body.malformed ≠ [AckAction.ack] := by decide

/-- C2 amended: a malformed envelope makes `processMessage` fail, so the
message is negatively acknowledged with requeue enabled and redelivered;
it is not acknowledged and dropped. -/
theorem malformed_requeued (index : String) :
    processMessage index Body.malformed = .error "failed to parse message" ∧
    deliveryAcks index Body.malformed = [AckAction.nackRequeue] :=
  ⟨rfl, rfl⟩

/-- C3: the Created example envelope produces an audit record with
resourceId "42" and the default action "UPDATE", followed by an upsert of
the decoded newData map under document id "42". -/
theorem created_example_effects :
    processMessage "items" createdExample =
      .ok [Effect.audit
             { traceId := "t1", action := "UPDATE", resource := "items",
               resourceId := "42", userId := 0,
               newData := some createdExampleNewData, oldData := none },
           Effect.upsert "42" createdExampleNewData] := rfl

/-- C4: the Deleted example envelope deletes document id "7" and performs
no audit write. -/
theorem deleted_example_effects :
    processMessage "items" deletedExample = .ok [Effect.delete "7"] := rfl

/-- C9: a well-formed envelope whose event kind is not registered is a
non-error no-op: no handler is found, no collaborator effect is produced,
and the message is positively acknowledged exactly once. -/
theorem unknown_event_acked (index event : String) (payload meta : GoMap)
    (h : event ∉ registeredEvents) :
    lookupHandler event = none ∧
    processMessage index (Body.wellFormed event payload meta) = .ok [] ∧
    deliveryAcks index (Body.wellFormed event payload meta) = [AckAction.ack] := by
  have hl : lookupHandler event = none := by
    simp [registeredEvents] at h
    obtain ⟨h1, h2, h3, h4⟩ := h
    simp [lookupHandler, h1, h2, h3, h4]
  exact ⟨hl, by simp [processMessage, hl], by simp [deliveryAcks, processMessage, hl]⟩

/-- Witness for C9: concrete application at an unregistered event kind. -/
theorem unknown_event_acked_witness :
    deliveryAcks "items" (Body.wellFormed "Moved" [] []) = [AckAction.ack] :=
  (unknown_event_acked "items" "Moved" [] [] (by decide)).2.2

/-- C8: the retry loop spawned by `resumePublishing` does not drain first;
its first cycle opens with the full base-interval sleep of 5 seconds, and
only then drains the buffer. -/
theorem resume_first_drain_after_sleep :
    retryTrace (fun _ => CycleObs.nonempty) 1 = [PubAction.sleep 5, PubAction.drain] := rfl

/-- Helper: enqueueing a (queue, body) pair already present leaves the
buffer unchanged. -/
theorem queueMessage_of_mem (buf : List QueuedMessage) (qn : String) (m : List ℕ)
    (h : ({ queueName := qn, message := m } : QueuedMessage) ∈ buf) :
    queueMessage buf qn m = buf := by
  unfold queueMessage
  rw [if_pos]
  exact List.any_eq_true.mpr ⟨_, h, by simp⟩

/-- Helper: `queueMessage` preserves freedom from duplicate entries. -/
theorem queueMessage_nodup (buf : List QueuedMessage) (qn : String) (m : List ℕ)
    (h : buf.Nodup) : (queueMessage buf qn m).Nodup := by
  unfold queueMessage
  split
  · exact h
  · rename_i hany
    have hnotmem : ({ queueName := qn, message := m } : QueuedMessage) ∉ buf := by
      intro hmem
      exact hany (List.any_eq_true.mpr ⟨_, hmem, by simp⟩)
    simp [List.nodup_append, h, hnotmem]

/-- Helper: any `queueMessage` sequence from a duplicate-free buffer keeps
it duplicate-free. -/
theorem enqueueAll_nodup_aux (ops : List (String × List ℕ)) (buf : List QueuedMessage)
    (h : buf.Nodup) :
    (ops.foldl (fun b op => queueMessage b op.1 op.2) buf).Nodup := by
  induction ops generalizing buf with
  | nil => exact h
  | cons op ops ih => exact ih _ (queueMessage_nodup _ _ _ h)

/-- C5: the retry buffer reached by any sequence of enqueues holds no two
identical (queue, body) entries, and enqueueing a pair byte-for-byte equal
to an entry already buffered changes nothing. -/
theorem retry_buffer_dedup (ops : List (String × List ℕ)) :
    (enqueueAll ops).Nodup ∧
    ∀ qn m, ({ queueName := qn, message := m } : QueuedMessage) ∈ enqueueAll ops →
      queueMessage (enqueueAll ops) qn m = enqueueAll ops :=
  ⟨enqueueAll_nodup_aux ops [] List.nodup_nil,
   fun qn m h => queueMessage_of_mem _ qn m h⟩

/-- Witness for C5: a duplicated enqueue of ("q", [1]) is dropped. -/
theorem retry_buffer_dedup_witness :
    queueMessage (enqueueAll [("q", [1]), ("q", [1])]) "q" [1] =
      enqueueAll [("q", [1]), ("q", [1])] :=
  (retry_buffer_dedup [("q", [1]), ("q", [1])]).2 "q" [1] (by decide)

/-- Helper: one non-empty cycle advances the capped-doubling formula. -/
theorem backoff_step_nonempty (n : ℕ) :
    stepBackoff (min (retryInterval * 2 ^ n) maxBackoff) CycleObs.nonempty =
      min (retryInterval * 2 ^ (n + 1)) maxBackoff := by
  have h2 : retryInterval * 2 ^ (n + 1) = 2 * (retryInterval * 2 ^ n) := by
    simp [retryInterval]; ring
  rw [h2]
  simp only [stepBackoff, retryInterval, maxBackoff] at *
  generalize 5 * 2 ^ n = a at *
  split_ifs <;> omega

/-- C6: starting from the 5-second base interval, the sleep before cycle n
is min(5·2^n, 30) seconds — 5, 10, 20, 30, 30, … — whenever every cycle
finds a non-empty buffer, and the sleep after any cycle that finds the
buffer empty is back to 5 seconds. -/
theorem backoff_schedule (obs : ℕ → CycleObs) :
    ((∀ k, obs k = CycleObs.nonempty) →
      ∀ n, sleepDur obs n = min (retryInterval * 2 ^ n) maxBackoff) ∧
    (∀ n, obs n = CycleObs.empty → sleepDur obs (n + 1) = retryInterval) := by
  constructor
  · intro hall n
    induction n with
    | zero => rfl
    | succ n ih =>
      show stepBackoff (sleepDur obs n) (obs n) = _
      rw [ih, hall n, backoff_step_nonempty]
  · intro n h
    show stepBackoff (sleepDur obs n) (obs n) = _
    rw [h]
    rfl

/-- Witness for C6: the concrete prefix 5, 10, 20, 30, 30 under an always
non-empty buffer, and the reset to 5 after an empty cycle. -/
theorem backoff_schedule_witness :
    sleepDur (fun _ => CycleObs.nonempty) 0 = 5 ∧
    sleepDur (fun _ => CycleObs.nonempty) 1 = 10 ∧
    sleepDur (fun _ => CycleObs.nonempty) 2 = 20 ∧
    sleepDur (fun _ => CycleObs.nonempty) 3 = 30 ∧
    sleepDur (fun _ => CycleObs.nonempty) 4 = 30 ∧
    sleepDur (fun _ => CycleObs.empty) 1 = 5 :=
  ⟨((backoff_schedule _).1 (fun _ => rfl) 0).trans (by decide),
   ((backoff_schedule _).1 (fun _ => rfl) 1).trans (by decide),
   ((backoff_schedule _).1 (fun _ => rfl) 2).trans (by decide),
   ((backoff_schedule _).1 (fun _ => rfl) 3).trans (by decide),
   ((backoff_schedule _).1 (fun _ => rfl) 4).trans (by decide),
   (backoff_schedule _).2 0 rfl⟩

/-- C7 counterexample: with a dial and channel that succeed and a queue
declaration that fails, `connect` reports an error yet the manager fields
are not as they were — the new connection and channel are installed. -/
theorem connect_declare_failure_counterexample :
    (connect ["q"] { dial := some 1, mkChannel := some 2, declareOk := fun _ => false }
        { conn := none, channel := none }).2.isSome = true ∧
    (connect ["q"] { dial := some 1, mkChannel := some 2, declareOk := fun _ => false }
        { conn := none, channel := none }).1 ≠ { conn := none, channel := none } := by
  decide

/-- C7 amended: when a queue declaration fails, the connect attempt is
aborted with an error, but by then the new connection and channel have
already been assigned to the manager fields; the state is not rolled back
to the pre-attempt state. -/
theorem connect_declare_failure_state (queueNames : List String) (env : ConnectEnv)
    (s : ConnState) (conn channel : ℕ)
    (hd : env.dial = some conn) (hc : env.mkChannel = some channel)
    (hq : queueNames.all env.declareOk = false) :
    connect queueNames env s =
      ({ conn := some conn, channel := some channel }, some "failed to declare queues") := by
  simp [connect, hd, hc, hq]

/-- Witness for C7: concrete application of the amended statement. -/
theorem connect_declare_failure_state_witness :
    connect ["q"] { dial := some 1, mkChannel := some 2, declareOk := fun _ => false }
        { conn := none, channel := none } =
      ({ conn := some 1, channel := some 2 }, some "failed to declare queues") :=
  connect_declare_failure_state ["q"]
    { dial := some 1, mkChannel := some 2, declareOk := fun _ => false }
    { conn := none, channel := none } 1 2 rfl rfl rfl

/-- Helper: the native-int type assertion never succeeds on a value produced
by JSON unmarshalling, since JSON numbers decode to `float64`. -/
theorem asInt_toGo (j : Json) : asInt (Json.toGo j) = none := by
  cases j <;> rfl

/-- Helper: looking a key up in a decoded JSON object finds the decoded
value of the corresponding JSON field. -/
theorem mlookup_jsonObjToGo (m : List (String × Json)) (k : String) :
    mlookup (jsonObjToGo m) k =
      (m.find? (fun p => p.1 == k)).map (fun p => Json.toGo p.2) := by
  induction m with
  | nil => rfl
  | cons p m ih =>
    obtain ⟨key, v⟩ := p
    by_cases h : key == k
    · simp [jsonObjToGo, mlookup, List.find?_cons, h]
    · simp only [jsonObjToGo, mlookup, List.find?_cons] at *
      simp only [h]
      exact ih

/-- Helper: the userId extracted from any JSON-decoded metadata map is 0. -/
theorem extractUserID_jsonObjToGo (m : List (String × Json)) :
    extractUserID (jsonObjToGo m) = 0 := by
  unfold extractUserID
  rw [mlookup_jsonObjToGo]
  cases m.find? (fun p => p.1 == "userId") with
  | none => rfl
  | some p => simp [asInt_toGo]

/-- Helper: when the extracted userId is 0, a successful `handleDeleted`
performs no audit write. -/
theorem handleDeleted_no_audit (index : String) (payload meta : GoMap)
    (hu : extractUserID meta = 0) (fx : List Effect)
    (hfx : handleDeleted index payload meta = .ok fx) (r : AuditRecord) :
    Effect.audit r ∉ fx := by
  unfold handleDeleted at hfx
  rw [hu] at hfx
  dsimp only at hfx
  repeat' split at hfx
  all_goals try (cases hfx)
  all_goals simp_all

/-- Helper: when the extracted userId is 0, every audit record written by a
successful `handleCreatedOrUpdated` carries userId 0. -/
theorem handleCreatedOrUpdated_userId_zero (index : String) (payload meta : GoMap)
    (hu : extractUserID meta = 0) (fx : List Effect) (r : AuditRecord)
    (hfx : handleCreatedOrUpdated index payload meta = .ok fx)
    (hmem : Effect.audit r ∈ fx) : r.userId = 0 := by
  unfold handleCreatedOrUpdated at hfx
  rw [hu] at hfx
  dsimp only at hfx
  repeat' split at hfx
  all_goals try (cases hfx)
  all_goals simp_all

/-- C10: on any envelope decoded from JSON wire input, the `userId` type
assertion to native `int` never matches (JSON numbers decode to `float64`),
so the extracted userId is always 0; consequently a successful Deleted
handler never writes an audit record — whatever `traceId` and numeric
`userId` the meta object carries — and every audit record a successful
Created/Updated handler writes carries userId 0. -/
theorem json_userId_always_zero (index : String) (payloadJ metaJ : List (String × Json)) :
    extractUserID (jsonObjToGo metaJ) = 0 ∧
    (∀ fx, handleDeleted index (jsonObjToGo payloadJ) (jsonObjToGo metaJ) = .ok fx →
      ∀ r, Effect.audit r ∉ fx) ∧
    (∀ fx r, handleCreatedOrUpdated index (jsonObjToGo payloadJ) (jsonObjToGo metaJ) = .ok fx →
      Effect.audit r ∈ fx → r.userId = 0) := by
  have hu := extractUserID_jsonObjToGo metaJ
  exact ⟨hu,
    fun fx hfx r => handleDeleted_no_audit index _ _ hu fx hfx r,
    fun fx r hfx hmem => handleCreatedOrUpdated_userId_zero index _ _ hu fx r hfx hmem⟩

/-- Witness for C10: a Deleted envelope whose meta carries traceId "t1" and
the JSON number 7 as userId still performs no audit write. -/
theorem json_userId_always_zero_witness :
    handleDeleted "items" (jsonObjToGo [("id", Json.jstr "7")])
        (jsonObjToGo [("traceId", Json.jstr "t1"), ("userId", Json.jnum 7)]) =
      .ok [Effect.delete "7"] ∧
    Effect.audit
        { traceId := "t1", action := "DELETE", resource := "items", resourceId := "7",
          userId := 7, newData := none, oldData := some (jsonObjToGo [("id", Json.jstr "7")]) } ∉
      ([Effect.delete "7"] : List Effect) :=
  ⟨rfl,
   (json_userId_always_zero "items" [("id", Json.jstr "7")]
       [("traceId", Json.jstr "t1"), ("userId", Json.jnum 7)]).2.1
     [Effect.delete "7"] rfl _⟩
